import Mathlib

set_option maxRecDepth 100000

/-
Verification of the invoice/payment reconciliation and authorization model of
the debt-collection REST backend.

Shallow embedding conventions:
* Mongo document ids are Nat; each collection is an association list Nat × record.
* JS numbers holding money amounts are embedded as exact rationals (the code
  only adds and compares them).
* External library functions (bcrypt compare and hash, jwt verification, the
  express-validator isEmail predicate) are passed in as function parameters.
* A controller is a pure function from the database and the (already parsed)
  request body to an Except result paired with the post-state database; every
  throw site of the source becomes one error constructor carrying exactly the
  data that the thrown message interpolates.
-/

/-- User roles, from the enum of the userSchema role field in models/User.js. -/
inductive Role where
  | agent
  | manager
  | admin
deriving DecidableEq

/-- Invoice statuses, from the enum of the invoiceSchema status field in
models/Invoice.js; partlyPaid stands for the source string "partially_paid". -/
inductive InvStatus where
  | unpaid
  | partlyPaid
  | paid
  | overdue
deriving DecidableEq

/-- A stored user document (models/User.js); password holds the bcrypt hash. -/
structure User where
  name : String
  email : String
  password : String
  role : Role
deriving DecidableEq

/-- A stored client document (models/Client.js). -/
structure Client where
  name : String
  email : Option String
  phone : Option String
  address : Option String
  createdBy : Nat
deriving DecidableEq

/-- A stored invoice document (models/Invoice.js). -/
structure Invoice where
  invoiceNumber : String
  client : Nat
  amount : ℚ
  amountPaid : ℚ
  dueDate : Int
  status : InvStatus
  createdBy : Nat
deriving DecidableEq

/-- A stored payment document (models/Payment.js) together with the
confirmation string synthesized by the payment strategy. -/
structure Payment where
  invoice : Nat
  amount : ℚ
  paymentDate : Int
  paymentMethod : String
  note : Option String
  recordedBy : Nat
  confirmation : String
deriving DecidableEq

/-- The persistent store: one association list per collection plus a fresh-id
counter standing for Mongo object-id generation. -/
structure DB where
  users : List (Nat × User)
  clients : List (Nat × Client)
  invoices : List (Nat × Invoice)
  payments : List Payment
  nextId : Nat
deriving DecidableEq

/-- The HttpError class of utils/HttpError.js: a message and a status code. -/
structure HttpError where
  message : String
  code : Nat
deriving DecidableEq

/-- Decidable equality of Except results, for evaluating controllers on
concrete inputs. -/
instance {ε α : Type} [DecidableEq ε] [DecidableEq α] : DecidableEq (Except ε α) :=
  fun a b =>
    match a, b with
    | Except.error x, Except.error y =>
      if h : x = y then isTrue (by rw [h]) else isFalse (by intro c; cases c; exact h rfl)
    | Except.error _, Except.ok _ => isFalse (by intro c; cases c)
    | Except.ok _, Except.error _ => isFalse (by intro c; cases c)
    | Except.ok x, Except.ok y =>
      if h : x = y then isTrue (by rw [h]) else isFalse (by intro c; cases c; exact h rfl)

/-- The query Model.findById on a collection: the record stored under an id. -/
def dbFind {α : Type} (l : List (Nat × α)) (k : Nat) : Option α :=
  match l with
  | [] => none
  | p :: t => if p.1 = k then some p.2 else dbFind t k

/-- Replace the record stored under an id, leaving other entries alone
(the effect of a mongoose save on a fetched document). -/
def setById {α : Type} (l : List (Nat × α)) (id : Nat) (a : α) : List (Nat × α) :=
  l.map (fun p => if p.1 = id then (id, a) else p)

/-- A JS truthiness test for an optional string: undefined and the empty
string are falsy. -/
def truthy : Option String → Bool
  | none => false
  | some s => s ≠ ""

/-- The JS expression a || b on two optional strings. -/
def jsOr (a b : Option String) : Option String :=
  if truthy a then a else b

/-- Parsed body of POST /api/payments. -/
structure PayReq where
  invoice : Nat
  amount : ℚ
  paymentMethod : String
  paymentDate : Option Int
  note : Option String
deriving DecidableEq

/-- The createPaymentValidator chain of validators/paymentValidator.js: the
amount check isFloat with minimum 0.01, the method isIn check, and the note
length check; express-validator collects all failing field messages, in chain
order.  The invoice-id and paymentDate shape checks cannot fail on an already
parsed request. -/
def createPaymentValidator (amount : ℚ) (paymentMethod : String)
    (note : Option String) : List String :=
  (if amount < 1 / 100 then ["Payment amount must be greater than 0"] else [])
    ++ (if paymentMethod ∈ ["cash", "check", "transfer"] then []
        else ["Payment method must be: cash, check, or transfer"])
    ++ (match note with
        | some n => if n.length > 500 then ["Note must be less than 500 characters"] else []
        | none => [])

/-- Output of a payment strategy process function
(strategies/paymentStrategies.js). -/
structure ProcessedPayment where
  amount : ℚ
  paymentMethod : String
  note : Option String
  confirmation : String
deriving DecidableEq

/-- getPaymentStrategy plus strategy.process of strategies/paymentStrategies.js;
now stands for Date.now().  Returns none where the source throws for an
unknown method. -/
def strategyProcess (method : String) (amount : ℚ) (note : Option String)
    (now : Int) : Option ProcessedPayment :=
  if method = "cash" then
    some ⟨amount, method, note, "CASH-" ++ toString now⟩
  else if method = "check" then
    some ⟨amount, method,
      some (match note with
            | some n => n ++ " (Check payment)"
            | none => "Check payment - allow clearing time"),
      "CHK-" ++ toString now⟩
  else if method = "transfer" then
    some ⟨amount, method, note, "TRF-" ++ toString now⟩
  else none

/-- Error outcomes of the createPayment controller, one constructor per throw
site, carrying the data interpolated into the thrown message. -/
inductive PayErr where
  | validation (msgs : List String)
  | invoiceNotFound
  | alreadyPaid
  | exceedsBalance (amount remaining : ℚ)
  | unknownMethod (method : String)
deriving DecidableEq

/-- The 201 response body of createPayment. -/
structure PayResponse where
  payment : Payment
  invoiceStatus : InvStatus
  remainingBalance : ℚ
  confirmation : String
deriving DecidableEq

/-- The createPayment controller of controllers/paymentController.js: runs the
validator, finds the invoice, rejects an already paid invoice, rejects an
amount above the remaining balance, otherwise persists the processed payment,
adds the amount to amountPaid, recomputes the status, and saves the invoice. -/
def createPayment (db : DB) (r : PayReq) (userId : Nat) (now : Int) :
    Except PayErr PayResponse × DB :=
  let errs := createPaymentValidator r.amount r.paymentMethod r.note
  if errs ≠ [] then (Except.error (PayErr.validation errs), db) else
  match dbFind db.invoices r.invoice with
  | none => (Except.error PayErr.invoiceNotFound, db)
  | some inv =>
    if inv.status = InvStatus.paid then (Except.error PayErr.alreadyPaid, db) else
    let remainingBalance := inv.amount - inv.amountPaid
    if remainingBalance < r.amount then
      (Except.error (PayErr.exceedsBalance r.amount remainingBalance), db)
    else
      match strategyProcess r.paymentMethod r.amount r.note now with
      | none => (Except.error (PayErr.unknownMethod r.paymentMethod), db)
      | some processed =>
        let payment : Payment :=
          { invoice := r.invoice
            amount := processed.amount
            paymentDate := r.paymentDate.getD now
            paymentMethod := processed.paymentMethod
            note := jsOr processed.note r.note
            recordedBy := userId
            confirmation := processed.confirmation }
        let newPaid := inv.amountPaid + r.amount
        let newStatus :=
          if inv.amount ≤ newPaid then InvStatus.paid
          else if 0 < newPaid then InvStatus.partlyPaid
          else inv.status
        let inv2 := { inv with amountPaid := newPaid, status := newStatus }
        (Except.ok
          { payment := payment
            invoiceStatus := newStatus
            remainingBalance := inv2.amount - inv2.amountPaid
            confirmation := processed.confirmation },
         { db with invoices := setById db.invoices r.invoice inv2
                   payments := db.payments ++ [payment] })

/-- Parsed body of POST /api/invoices. -/
structure CreateInvoiceReq where
  invoiceNumber : String
  client : Nat
  amount : ℚ
  dueDate : Int
deriving DecidableEq

/-- The createInvoiceValidator chain of validators/invoiceValidator.js: the
notEmpty check on invoiceNumber and the amount isFloat check with minimum 0;
the client-id and dueDate shape checks cannot fail on a parsed request. -/
def createInvoiceValidator (invoiceNumber : String) (amount : ℚ) : List String :=
  (if invoiceNumber = "" then ["Invoice number is required"] else [])
    ++ (if amount < 0 then ["Amount must be a positive number"] else [])

/-- Error outcomes of the invoice controllers, one constructor per throw site. -/
inductive InvErr where
  | validation (msgs : List String)
  | clientNotFound
  | duplicateInvoiceNumber
  | invoiceNotFound
deriving DecidableEq

/-- The createInvoice controller of controllers/invoiceController.js: validates,
checks that the client exists and the invoice number is not taken, then creates
the invoice; amountPaid and status take the schema defaults 0 and unpaid. -/
def createInvoice (db : DB) (r : CreateInvoiceReq) (userId : Nat) :
    Except InvErr Invoice × DB :=
  let errs := createInvoiceValidator r.invoiceNumber r.amount
  if errs ≠ [] then (Except.error (InvErr.validation errs), db) else
  match dbFind db.clients r.client with
  | none => (Except.error InvErr.clientNotFound, db)
  | some _ =>
    if db.invoices.any (fun p => p.2.invoiceNumber = r.invoiceNumber) then
      (Except.error InvErr.duplicateInvoiceNumber, db)
    else
      let inv : Invoice :=
        { invoiceNumber := r.invoiceNumber
          client := r.client
          amount := r.amount
          amountPaid := 0
          dueDate := r.dueDate
          status := InvStatus.unpaid
          createdBy := userId }
      (Except.ok inv,
       { db with invoices := db.invoices ++ [(db.nextId, inv)]
                 nextId := db.nextId + 1 })

/-- Parsed body of PUT /api/invoices/:id; every field is optional. -/
structure UpdateInvoiceReq where
  invoiceNumber : Option String
  client : Option Nat
  amount : Option ℚ
  dueDate : Option Int
  status : Option InvStatus
deriving DecidableEq

/-- The updateInvoiceValidator chain of validators/invoiceValidator.js: the
only check that can fail on a parsed request is the optional amount isFloat
check with minimum 0 (the status isIn check is captured by the InvStatus
type). -/
def updateInvoiceValidator (amount : Option ℚ) : List String :=
  match amount with
  | some a => if a < 0 then ["Amount must be a positive number"] else []
  | none => []

/-- The updateInvoice controller of controllers/invoiceController.js: validates,
finds the invoice, then overwrites each field that was supplied — JS truthiness
guards invoiceNumber, client, dueDate and status, while amount is overwritten
whenever it is present, even when 0 — and saves.  No check relates the new
amount to the stored amountPaid. -/
def updateInvoice (db : DB) (id : Nat) (r : UpdateInvoiceReq) :
    Except InvErr Invoice × DB :=
  let errs := updateInvoiceValidator r.amount
  if errs ≠ [] then (Except.error (InvErr.validation errs), db) else
  match dbFind db.invoices id with
  | none => (Except.error InvErr.invoiceNotFound, db)
  | some inv =>
    let inv1 := match r.invoiceNumber with
      | some s => if s ≠ "" then { inv with invoiceNumber := s } else inv
      | none => inv
    let inv2 := match r.client with
      | some c => { inv1 with client := c }
      | none => inv1
    let inv3 := match r.amount with
      | some a => { inv2 with amount := a }
      | none => inv2
    let inv4 := match r.dueDate with
      | some d => { inv3 with dueDate := d }
      | none => inv3
    let inv5 := match r.status with
      | some s => { inv4 with status := s }
      | none => inv4
    (Except.ok inv5, { db with invoices := setById db.invoices id inv5 })

/-- Normalization applied by the mongoose schema lowercase and trim setters on
email fields, applied both on save and when casting a findOne filter. -/
def normalizeEmail (e : String) : String :=
  e.trim.toLower

/-- The query User.findOne on an email, with the schema lowercase and trim
setters applied to the filter value. -/
def findByEmail (users : List (Nat × User)) (email : String) :
    Option (Nat × User) :=
  users.find? (fun p => p.2.email = normalizeEmail email)

/-- Parsed body of POST /api/auth/register; role captures a role value supplied
in the request body (the userSchema default makes an absent role agent). -/
structure RegisterReq where
  name : String
  email : String
  password : String
  role : Option String
deriving DecidableEq

/-- The registerValidator chain of validators/authValidator.js; isEmail is the
external express-validator predicate, passed in as a parameter. -/
def registerValidator (isEmail : String → Bool) (r : RegisterReq) : List String :=
  (if r.name = "" then ["Name is required"] else [])
    ++ (if r.name.length < 3 ∨ r.name.length > 50 then
          ["Name must be between 3 and 50 characters"] else [])
    ++ (if r.email = "" then ["Email is required"] else [])
    ++ (if ¬ isEmail r.email then ["Please provide a valid email"] else [])
    ++ (if r.password = "" then ["Password is required"] else [])
    ++ (if r.password.length < 6 then ["Password must be at least 6 characters"] else [])
    ++ (match r.role with
        | some s => if s ∈ ["agent", "manager", "admin"] then []
                    else ["Role must be agent, manager, or admin"]
        | none => [])

/-- Error outcomes of the auth controllers, one constructor per failure
response of controllers/authController.js. -/
inductive AuthFail where
  | validation (msgs : List String)
  | emailInUse
  | invalidCredentials
deriving DecidableEq

/-- The HTTP status and message each AuthFail outcome is surfaced with. -/
def AuthFail.toHttp : AuthFail → HttpError
  | AuthFail.validation msgs => { message := String.intercalate ", " msgs, code := 400 }
  | AuthFail.emailInUse => { message := "Email already in use", code := 400 }
  | AuthFail.invalidCredentials => { message := "Invalid email or password", code := 401 }

/-- The 201 response body of register and the 200 response body of login:
id, name, email and role — never the password. -/
structure AuthResponse where
  id : Nat
  name : String
  email : String
  role : Role
deriving DecidableEq

/-- The register controller of controllers/authController.js: validates,
rejects an email already in use, then saves a user built from name, email and
password only — any role field of the body is ignored, so the userSchema
default makes every registered user an agent; hash is the external bcrypt
hashing, passed in as a parameter. -/
def register (isEmail : String → Bool) (hash : String → String) (db : DB)
    (r : RegisterReq) : Except AuthFail AuthResponse × DB :=
  let errs := registerValidator isEmail r
  if errs ≠ [] then (Except.error (AuthFail.validation errs), db) else
  match findByEmail db.users r.email with
  | some _ => (Except.error AuthFail.emailInUse, db)
  | none =>
    let u : User :=
      { name := r.name.trim
        email := normalizeEmail r.email
        password := hash r.password
        role := Role.agent }
    (Except.ok { id := db.nextId, name := u.name, email := u.email, role := u.role },
     { db with users := db.users ++ [(db.nextId, u)], nextId := db.nextId + 1 })

/-- The loginValidator chain of validators/authValidator.js. -/
def loginValidator (isEmail : String → Bool) (email password : String) :
    List String :=
  (if email = "" then ["Email is required"] else [])
    ++ (if ¬ isEmail email then ["Please provide a valid email"] else [])
    ++ (if password = "" then ["Password is required"] else [])

/-- The login controller of controllers/authController.js: validates, looks the
user up by email, and fails with one single error — HttpError with message
Invalid email or password and status 401 — both when no user carries the email
and when the bcrypt comparison matchPw rejects the password. -/
def login (isEmail : String → Bool) (matchPw : String → String → Bool) (db : DB)
    (email password : String) : Except AuthFail AuthResponse :=
  let errs := loginValidator isEmail email password
  if errs ≠ [] then Except.error (AuthFail.validation errs) else
  match findByEmail db.users email with
  | none => Except.error AuthFail.invalidCredentials
  | some (id, u) =>
    if matchPw password u.password then
      Except.ok { id := id, name := u.name, email := u.email, role := u.role }
    else
      Except.error AuthFail.invalidCredentials

/-- The identity the protect middleware attaches to the request: the stored
user minus the password (select -password). -/
structure AuthedUser where
  id : Nat
  name : String
  email : String
  role : Role
deriving DecidableEq

/-- The protect middleware of middleware/authMiddleware.js; verify stands for
jwt.verify against the server secret at the current instant, returning the
embedded user id, or none for a missing signature match, expiry or malformed
token.  The user-not-found 401 is thrown inside the try block, so the catch
rewrites its message to the token-invalid one; every failure is a 401. -/
def protect (verify : String → Option Nat) (db : DB) (cookie : Option String) :
    Except HttpError AuthedUser :=
  match cookie with
  | none => Except.error { message := "Not authorized, no token", code := 401 }
  | some t =>
    match verify t with
    | none => Except.error { message := "Not authorized, token invalid", code := 401 }
    | some uid =>
      match dbFind db.users uid with
      | none => Except.error { message := "Not authorized, token invalid", code := 401 }
      | some u => Except.ok { id := uid, name := u.name, email := u.email, role := u.role }

/-- The role name as it appears in the authorize error message. -/
def roleName : Role → String
  | Role.agent => "agent"
  | Role.manager => "manager"
  | Role.admin => "admin"

/-- The authorize middleware of middleware/authMiddleware.js, applied to the
identity protect attached: 403 when the role is outside the statically
declared list. -/
def authorize (roles : List Role) (user : Option AuthedUser) :
    Except HttpError Unit :=
  match user with
  | none => Except.error { message := "Not authorized", code := 401 }
  | some u =>
    if u.role ∈ roles then Except.ok ()
    else Except.error
      { message := "Role " ++ roleName u.role ++ " is not authorized to access this resource"
        code := 403 }

/-- A protected route as wired in the routers: router.use(protect) first, then
authorize(roles) for the declared role list, then the handler; a middleware
failure ends the request with that error and an untouched database. -/
def protectedRoute {α : Type} (verify : String → Option Nat) (db : DB)
    (cookie : Option String) (roles : List Role)
    (handler : AuthedUser → DB → Except HttpError α × DB) :
    Except HttpError α × DB :=
  match protect verify db cookie with
  | Except.error e => (Except.error e, db)
  | Except.ok u =>
    match authorize roles (some u) with
    | Except.error e => (Except.error e, db)
    | Except.ok _ => handler u db

/-- Parsed body of POST /api/clients. -/
structure ClientReq where
  name : String
  email : Option String
  phone : Option String
  address : Option String
deriving DecidableEq

/-- The createClientValidator chain of validators/clientValidator.js. -/
def createClientValidator (isEmail : String → Bool) (r : ClientReq) :
    List String :=
  (if r.name = "" then ["Client name is required"] else [])
    ++ (if r.name.length < 2 ∨ r.name.length > 100 then
          ["Name must be between 2 and 100 characters"] else [])
    ++ (match r.email with
        | some e => if ¬ isEmail e then ["Please provide a valid email"] else []
        | none => [])
    ++ (match r.phone with
        | some p => if p.length < 8 ∨ p.length > 15 then
            ["Phone must be between 8 and 15 characters"] else []
        | none => [])
    ++ (match r.address with
        | some a => if a.length > 200 then
            ["Address must be less than 200 characters"] else []
        | none => [])

/-- The createClient controller of controllers/clientController.js: validates,
then creates the client owned by the acting user; the HttpError carries the
joined field messages with status 400 on validation failure. -/
def createClient (isEmail : String → Bool) (db : DB) (r : ClientReq)
    (userId : Nat) : Except HttpError Client × DB :=
  let errs := createClientValidator isEmail r
  if errs ≠ [] then
    (Except.error { message := String.intercalate ", " errs, code := 400 }, db)
  else
    let c : Client :=
      { name := r.name
        email := r.email.map normalizeEmail
        phone := r.phone
        address := r.address
        createdBy := userId }
    (Except.ok c,
     { db with clients := db.clients ++ [(db.nextId, c)], nextId := db.nextId + 1 })

/-- POST /api/clients as wired in routes/clients.js: protect, then
authorize(agent, manager), then createClientValidator and createClient. -/
def clientsCreateRoute (isEmail : String → Bool) (verify : String → Option Nat)
    (db : DB) (cookie : Option String) (body : ClientReq) :
    Except HttpError Client × DB :=
  protectedRoute verify db cookie [Role.agent, Role.manager]
    (fun u db0 => createClient isEmail db0 body u.id)

/-- The deleteUser controller of controllers/userController.js: finds the
target user, rejects the admin deleting the record matching their own id with
a 400, otherwise removes the record. -/
def deleteUser (db : DB) (targetId : Nat) (actingId : Nat) :
    Except HttpError String × DB :=
  match dbFind db.users targetId with
  | none => (Except.error { message := "User not found", code := 404 }, db)
  | some _ =>
    if targetId = actingId then
      (Except.error { message := "Cannot delete your own account", code := 400 }, db)
    else
      (Except.ok "User deleted successfully",
       { db with users := db.users.filter (fun p => p.1 ≠ targetId) })

/-- DELETE /api/users/:id as wired in routes/users.js: protect, then
authorize(admin), then deleteUser. -/
def usersDeleteRoute (verify : String → Option Nat) (db : DB)
    (cookie : Option String) (targetId : Nat) :
    Except HttpError String × DB :=
  protectedRoute verify db cookie [Role.admin]
    (fun u db0 => deleteUser db0 targetId u.id)

/-- The invariant of §8 of the design: paid amount between zero and the total. -/
def invariantOk (inv : Invoice) : Prop :=
  0 ≤ inv.amountPaid ∧ inv.amountPaid ≤ inv.amount

instance (inv : Invoice) : Decidable (invariantOk inv) := by
  unfold invariantOk; infer_instance

/-- The note length check of the payment validator, isolated. -/
def noteOk : Option String → Bool
  | some n => n.length ≤ 500
  | none => true


lemma dbFind_mem {α : Type} {l : List (Nat × α)} {k : Nat} {v : α}
    (h : dbFind l k = some v) : (k, v) ∈ l := by
  induction l with
  | nil => simp [dbFind] at h
  | cons p t ih =>
    rw [dbFind] at h
    split_ifs at h with hk
    · cases h
      rw [← hk]
      exact List.mem_cons_self p t
    · exact List.mem_cons_of_mem _ (ih h)

lemma dbFind_setById {α : Type} {l : List (Nat × α)} {k : Nat} {v : α} (a : α)
    (h : dbFind l k = some v) :
    dbFind (setById l k a) k = some a := by
  induction l with
  | nil => simp [dbFind] at h
  | cons p t ih =>
    rw [dbFind] at h
    unfold setById
    rw [List.map_cons, dbFind]
    by_cases hk : p.1 = k
    · rw [if_pos hk]
      simp
    · rw [if_neg hk] at h ⊢
      rw [if_neg hk]
      exact ih h

lemma mem_setById {α : Type} {l : List (Nat × α)} {k : Nat} {a : α}
    {p : Nat × α} (h : p ∈ setById l k a) : p = (k, a) ∨ p ∈ l := by
  unfold setById at h
  rcases List.mem_map.mp h with ⟨q, hq, hfq⟩
  by_cases hk : q.1 = k
  · rw [if_pos hk] at hfq
    exact Or.inl hfq.symm
  · rw [if_neg hk] at hfq
    exact Or.inr (hfq ▸ hq)

lemma createPaymentValidator_nil_of {amount : ℚ} {method : String}
    {note : Option String} (h1 : 1 / 100 ≤ amount)
    (h2 : method ∈ ["cash", "check", "transfer"]) (h3 : noteOk note) :
    createPaymentValidator amount method note = [] := by
  unfold createPaymentValidator
  rw [if_neg (not_lt.mpr h1), if_pos h2]
  rcases note with - | n
  · rfl
  · unfold noteOk at h3
    simp only [decide_eq_true_eq] at h3
    show ([] ++ [] ++ (if n.length > 500 then ["Note must be less than 500 characters"]
      else []) : List String) = []
    rw [if_neg (by omega)]
    rfl

lemma of_createPaymentValidator_nil {amount : ℚ} {method : String}
    {note : Option String}
    (h : createPaymentValidator amount method note = []) :
    1 / 100 ≤ amount ∧ method ∈ ["cash", "check", "transfer"] ∧ noteOk note := by
  unfold createPaymentValidator at h
  rcases List.append_eq_nil.mp h with ⟨h12, hz⟩
  rcases List.append_eq_nil.mp h12 with ⟨hx, hy⟩
  refine ⟨?_, ?_, ?_⟩
  · rcases lt_or_le amount (1 / 100) with hlt | hle
    · rw [if_pos hlt] at hx
      exact absurd hx (by simp)
    · exact hle
  · by_cases hm : method ∈ ["cash", "check", "transfer"]
    · exact hm
    · rw [if_neg hm] at hy
      exact absurd hy (by simp)
  · rcases note with - | n
    · rfl
    · have hz2 : (if n.length > 500 then ["Note must be less than 500 characters"]
        else ([] : List String)) = [] := hz
      by_cases hc : n.length > 500
      · rw [if_pos hc] at hz2
        exact absurd hz2 (by simp)
      · unfold noteOk
        simp only [decide_eq_true_eq]
        omega

lemma createInvoiceValidator_amount_nonneg {n : String} {a : ℚ}
    (h : createInvoiceValidator n a = []) : 0 ≤ a := by
  unfold createInvoiceValidator at h
  split_ifs at h with h1 h2 <;> simp_all [not_lt]

lemma strategyProcess_of_mem {method : String} (amount : ℚ)
    (note : Option String) (now : Int)
    (h : method ∈ ["cash", "check", "transfer"]) :
    ∃ pp, strategyProcess method amount note now = some pp ∧
      pp.amount = amount ∧ pp.paymentMethod = method := by
  simp only [List.mem_cons, List.not_mem_nil, or_false] at h
  rcases h with rfl | rfl | rfl
  · exact ⟨⟨amount, "cash", note, "CASH-" ++ toString now⟩,
      by simp [strategyProcess], rfl, rfl⟩
  · exact ⟨⟨amount, "check",
      some (match note with
            | some n => n ++ " (Check payment)"
            | none => "Check payment - allow clearing time"),
      "CHK-" ++ toString now⟩, by simp [strategyProcess], rfl, rfl⟩
  · exact ⟨⟨amount, "transfer", note, "TRF-" ++ toString now⟩,
      by simp [strategyProcess], rfl, rfl⟩

lemma createPayment_validation {db : DB} {r : PayReq} {userId : Nat} {now : Int}
    (hv : createPaymentValidator r.amount r.paymentMethod r.note ≠ []) :
    createPayment db r userId now =
      (Except.error (PayErr.validation
        (createPaymentValidator r.amount r.paymentMethod r.note)), db) := by
  simp only [createPayment]
  rw [if_pos hv]

lemma createPayment_notFound {db : DB} {r : PayReq} {userId : Nat} {now : Int}
    (hv : createPaymentValidator r.amount r.paymentMethod r.note = [])
    (hfind : dbFind db.invoices r.invoice = none) :
    createPayment db r userId now = (Except.error PayErr.invoiceNotFound, db) := by
  simp only [createPayment, hv, hfind, ne_eq, not_true_eq_false, if_false]

lemma createPayment_alreadyPaidBranch {db : DB} {r : PayReq} {userId : Nat}
    {now : Int} {inv : Invoice}
    (hv : createPaymentValidator r.amount r.paymentMethod r.note = [])
    (hfind : dbFind db.invoices r.invoice = some inv)
    (hst : inv.status = InvStatus.paid) :
    createPayment db r userId now = (Except.error PayErr.alreadyPaid, db) := by
  simp only [createPayment, hv, hfind, hst, ne_eq, not_true_eq_false, if_false, if_true]

lemma createPayment_exceeds {db : DB} {r : PayReq} {userId : Nat} {now : Int}
    {inv : Invoice}
    (hv : createPaymentValidator r.amount r.paymentMethod r.note = [])
    (hfind : dbFind db.invoices r.invoice = some inv)
    (hst : inv.status ≠ InvStatus.paid)
    (hbal : inv.amount - inv.amountPaid < r.amount) :
    createPayment db r userId now =
      (Except.error (PayErr.exceedsBalance r.amount (inv.amount - inv.amountPaid)), db) := by
  simp only [createPayment, hv, hfind, ne_eq, not_true_eq_false, if_false]
  rw [if_neg hst, if_pos hbal]

lemma createPayment_success_eval {db : DB} {r : PayReq} {userId : Nat} {now : Int}
    {inv : Invoice} {pp : ProcessedPayment}
    (hv : createPaymentValidator r.amount r.paymentMethod r.note = [])
    (hfind : dbFind db.invoices r.invoice = some inv)
    (hst : inv.status ≠ InvStatus.paid)
    (hbal : ¬ (inv.amount - inv.amountPaid < r.amount))
    (hsp : strategyProcess r.paymentMethod r.amount r.note now = some pp) :
    createPayment db r userId now =
      (Except.ok
        { payment :=
            { invoice := r.invoice, amount := pp.amount,
              paymentDate := r.paymentDate.getD now,
              paymentMethod := pp.paymentMethod, note := jsOr pp.note r.note,
              recordedBy := userId, confirmation := pp.confirmation }
          invoiceStatus :=
            if inv.amount ≤ inv.amountPaid + r.amount then InvStatus.paid
            else if 0 < inv.amountPaid + r.amount then InvStatus.partlyPaid
            else inv.status
          remainingBalance := inv.amount - (inv.amountPaid + r.amount)
          confirmation := pp.confirmation },
       { db with
           invoices := setById db.invoices r.invoice
             { inv with
                 amountPaid := inv.amountPaid + r.amount
                 status :=
                   if inv.amount ≤ inv.amountPaid + r.amount then InvStatus.paid
                   else if 0 < inv.amountPaid + r.amount then InvStatus.partlyPaid
                   else inv.status }
           payments := db.payments ++
             [{ invoice := r.invoice, amount := pp.amount,
                paymentDate := r.paymentDate.getD now,
                paymentMethod := pp.paymentMethod, note := jsOr pp.note r.note,
                recordedBy := userId, confirmation := pp.confirmation }] }) := by
  simp only [createPayment, hv, hfind, hsp, ne_eq, not_true_eq_false, if_false]
  rw [if_neg hst, if_neg hbal]

/-- C1: counterexample — the invoice is unpaid with balance 1000 and the
payment amount 1/200 satisfies 0 < a ≤ amount − amountPaid, yet createPayment
does not succeed: the validator minimum of 0.01 rejects it with the
amount-field message. -/
theorem createPayment_small_amount_cx :
    (0 : ℚ) < 1 / 200 ∧ (1 / 200 : ℚ) ≤ 1000 - 0 ∧
    (createPayment
      { users := [], clients := [],
        invoices := [(2, { invoiceNumber := "INV-1", client := 1, amount := 1000,
                           amountPaid := 0, dueDate := 0,
                           status := InvStatus.unpaid, createdBy := 0 })],
        payments := [], nextId := 3 }
      { invoice := 2, amount := 1 / 200, paymentMethod := "cash",
        paymentDate := none, note := none } 0 0).1
      = Except.error (PayErr.validation ["Payment amount must be greater than 0"]) := by
  with_unfolding_all decide

/-- C1 (amended): for every invoice whose status is not paid and every request
passing field validation (amount at least 0.01 and at most the remaining
balance, a method among cash, check and transfer, a note of at most 500
characters), createPayment succeeds; the new amountPaid is the old one plus
the amount, the status becomes paid iff the new amountPaid equals amount and
partially_paid otherwise, and the response carries the created payment, the
new status, and the remaining balance amount − new amountPaid. -/
theorem createPayment_reconciliation (db : DB) (r : PayReq) (userId : Nat)
    (now : Int) (inv : Invoice)
    (hfind : dbFind db.invoices r.invoice = some inv)
    (hst : inv.status ≠ InvStatus.paid)
    (hpp : 0 ≤ inv.amountPaid)
    (ha : 1 / 100 ≤ r.amount)
    (hb : r.amount ≤ inv.amount - inv.amountPaid)
    (hm : r.paymentMethod ∈ ["cash", "check", "transfer"])
    (hn : noteOk r.note) :
    ∃ resp,
      (createPayment db r userId now).1 = Except.ok resp ∧
      resp.payment.invoice = r.invoice ∧
      resp.payment.amount = r.amount ∧
      resp.payment.paymentMethod = r.paymentMethod ∧
      resp.invoiceStatus = (if inv.amountPaid + r.amount = inv.amount
        then InvStatus.paid else InvStatus.partlyPaid) ∧
      resp.remainingBalance = inv.amount - (inv.amountPaid + r.amount) ∧
      dbFind (createPayment db r userId now).2.invoices r.invoice =
        some { inv with
                 amountPaid := inv.amountPaid + r.amount
                 status := (if inv.amountPaid + r.amount = inv.amount
                            then InvStatus.paid else InvStatus.partlyPaid) } ∧
      (createPayment db r userId now).2.payments = db.payments ++ [resp.payment] := by
  have hv := createPaymentValidator_nil_of ha hm hn
  obtain ⟨pp, hsp, hppa, hppm⟩ := strategyProcess_of_mem r.amount r.note now hm
  have hbal : ¬ (inv.amount - inv.amountPaid < r.amount) := not_lt.mpr hb
  have heval := @createPayment_success_eval db r userId now inv pp hv hfind hst hbal hsp
  have hle : inv.amountPaid + r.amount ≤ inv.amount := by linarith
  have hpos : (0 : ℚ) < inv.amountPaid + r.amount := by
    have h100 : (0 : ℚ) < 1 / 100 := by norm_num
    linarith
  have hstEq : (if inv.amount ≤ inv.amountPaid + r.amount then InvStatus.paid
      else if 0 < inv.amountPaid + r.amount then InvStatus.partlyPaid
      else inv.status)
      = (if inv.amountPaid + r.amount = inv.amount then InvStatus.paid
         else InvStatus.partlyPaid) := by
    rcases eq_or_lt_of_le hle with heq | hlt
    · rw [if_pos (le_of_eq heq.symm), if_pos heq]
    · rw [if_neg (not_le.mpr hlt), if_pos hpos, if_neg (ne_of_lt hlt)]
  rw [heval]
  refine ⟨_, rfl, rfl, hppa, hppm, hstEq, rfl, ?_, rfl⟩
  rw [dbFind_setById _ hfind, hstEq]

/-- C1 (witness): the spec §8 scenario — a 600 payment on an unpaid invoice of
1000 yields amountPaid 600, status partially paid, remaining balance 400. -/
theorem createPayment_reconciliation_witness :
    ∃ resp,
      (createPayment
        { users := [], clients := [],
          invoices := [(2, { invoiceNumber := "INV-1", client := 1, amount := 1000,
                             amountPaid := 0, dueDate := 0,
                             status := InvStatus.unpaid, createdBy := 0 })],
          payments := [], nextId := 3 }
        { invoice := 2, amount := 600, paymentMethod := "cash",
          paymentDate := none, note := none } 0 5).1 = Except.ok resp ∧
      resp.payment.invoice = 2 ∧
      resp.payment.amount = 600 ∧
      resp.payment.paymentMethod = "cash" ∧
      resp.invoiceStatus = (if (0 : ℚ) + 600 = 1000
        then InvStatus.paid else InvStatus.partlyPaid) ∧
      resp.remainingBalance = 1000 - ((0 : ℚ) + 600) ∧
      dbFind (createPayment
        { users := [], clients := [],
          invoices := [(2, { invoiceNumber := "INV-1", client := 1, amount := 1000,
                             amountPaid := 0, dueDate := 0,
                             status := InvStatus.unpaid, createdBy := 0 })],
          payments := [], nextId := 3 }
        { invoice := 2, amount := 600, paymentMethod := "cash",
          paymentDate := none, note := none } 0 5).2.invoices 2 =
        some { invoiceNumber := "INV-1", client := 1, amount := 1000,
               amountPaid := (0 : ℚ) + 600, dueDate := 0,
               status := (if (0 : ℚ) + 600 = 1000 then InvStatus.paid
                          else InvStatus.partlyPaid), createdBy := 0 } ∧
      (createPayment
        { users := [], clients := [],
          invoices := [(2, { invoiceNumber := "INV-1", client := 1, amount := 1000,
                             amountPaid := 0, dueDate := 0,
                             status := InvStatus.unpaid, createdBy := 0 })],
          payments := [], nextId := 3 }
        { invoice := 2, amount := 600, paymentMethod := "cash",
          paymentDate := none, note := none } 0 5).2.payments = [] ++ [resp.payment] :=
  createPayment_reconciliation
    { users := [], clients := [],
      invoices := [(2, { invoiceNumber := "INV-1", client := 1, amount := 1000,
                         amountPaid := 0, dueDate := 0,
                         status := InvStatus.unpaid, createdBy := 0 })],
      payments := [], nextId := 3 }
    { invoice := 2, amount := 600, paymentMethod := "cash",
      paymentDate := none, note := none } 0 5
    { invoiceNumber := "INV-1", client := 1, amount := 1000,
      amountPaid := 0, dueDate := 0, status := InvStatus.unpaid, createdBy := 0 }
    (by with_unfolding_all decide) (by with_unfolding_all decide)
    (by with_unfolding_all decide) (by with_unfolding_all decide)
    (by with_unfolding_all decide) (by with_unfolding_all decide)
    (by with_unfolding_all decide)

/-- C3: on every failure of createPayment the database — payment ledger and
invoices — is returned unchanged, and an exceeds-balance rejection carries
the request amount together with the remaining balance computed from the
stored, unchanged invoice. -/
theorem createPayment_atomic (db : DB) (r : PayReq) (userId : Nat) (now : Int) :
    (∀ e : PayErr, (createPayment db r userId now).1 = Except.error e →
       (createPayment db r userId now).2 = db) ∧
    (∀ a rem : ℚ, (createPayment db r userId now).1 =
        Except.error (PayErr.exceedsBalance a rem) →
      a = r.amount ∧ ∃ inv, dbFind db.invoices r.invoice = some inv ∧
        inv.status ≠ InvStatus.paid ∧ rem = inv.amount - inv.amountPaid) := by
  by_cases hv : createPaymentValidator r.amount r.paymentMethod r.note = []
  · cases hfind : dbFind db.invoices r.invoice with
    | none =>
      rw [createPayment_notFound hv hfind]
      exact ⟨fun e h => rfl, fun a rem h => by simp at h⟩
    | some inv =>
      by_cases hst : inv.status = InvStatus.paid
      · rw [createPayment_alreadyPaidBranch hv hfind hst]
        exact ⟨fun e h => rfl, fun a rem h => by simp at h⟩
      · by_cases hbal : inv.amount - inv.amountPaid < r.amount
        · rw [createPayment_exceeds hv hfind hst hbal]
          refine ⟨fun e h => rfl, fun a rem h => ?_⟩
          simp only [Except.error.injEq, PayErr.exceedsBalance.injEq] at h
          exact ⟨h.1.symm, inv, rfl, hst, h.2.symm⟩
        · obtain ⟨pp, hsp, -, -⟩ := strategyProcess_of_mem r.amount r.note now
            (of_createPaymentValidator_nil hv).2.1
          rw [@createPayment_success_eval db r userId now inv pp hv hfind hst hbal hsp]
          exact ⟨fun e h => by simp at h, fun a rem h => by simp at h⟩
  · rw [createPayment_validation hv]
    exact ⟨fun e h => rfl, fun a rem h => by simp at h⟩

/-- The concrete store of the spec §8 exceeds-balance scenario: one unpaid
invoice of amount 500 with nothing paid. -/
def c3db : DB :=
  { users := [], clients := [],
    invoices := [(7, { invoiceNumber := "INV-2", client := 1, amount := 500,
                       amountPaid := 0, dueDate := 0,
                       status := InvStatus.unpaid, createdBy := 0 })],
    payments := [], nextId := 8 }

/-- C3 (witness): the spec §8 scenario — a 600 payment against an unchanged
invoice of amount 500 is rejected carrying remaining balance 500, and the
database is exactly the one before the call. -/
theorem createPayment_atomic_witness :
    (600 : ℚ) = 600 ∧ ∃ inv,
      dbFind c3db.invoices 7 = some inv ∧
      inv.status ≠ InvStatus.paid ∧ (500 : ℚ) = inv.amount - inv.amountPaid :=
  (createPayment_atomic c3db
    { invoice := 7, amount := 600, paymentMethod := "cash",
      paymentDate := none, note := none } 0 0).2 600 500
    (by with_unfolding_all decide)

/-- C4: counterexample — with amount 0 and method bitcoin, the reported error
is not the single amount error the claim promises for the first failing
check: the two field messages are aggregated into one validation error. -/
theorem createPayment_order_cx :
    (createPayment
      { users := [], clients := [],
        invoices := [(2, { invoiceNumber := "INV-1", client := 1, amount := 1000,
                           amountPaid := 0, dueDate := 0,
                           status := InvStatus.unpaid, createdBy := 0 })],
        payments := [], nextId := 3 }
      { invoice := 2, amount := 0, paymentMethod := "bitcoin",
        paymentDate := none, note := none } 0 0).1
      = Except.error (PayErr.validation
          ["Payment amount must be greater than 0",
           "Payment method must be: cash, check, or transfer"]) ∧
    (createPayment
      { users := [], clients := [],
        invoices := [(2, { invoiceNumber := "INV-1", client := 1, amount := 1000,
                           amountPaid := 0, dueDate := 0,
                           status := InvStatus.unpaid, createdBy := 0 })],
        payments := [], nextId := 3 }
      { invoice := 2, amount := 0, paymentMethod := "bitcoin",
        paymentDate := none, note := none } 0 0).1
      ≠ Except.error (PayErr.validation
          ["Payment amount must be greater than 0"]) := by
  with_unfolding_all decide

/-- C4 (amended): the field validator runs first and aggregates the failing
amount (minimum 0.01), method and note messages into one validation error;
when it passes, the remaining checks run in order — invoice existence, then
not already paid, then amount within the remaining balance — and the first
failing one determines the error. -/
theorem createPayment_check_order (db : DB) (r : PayReq) (userId : Nat)
    (now : Int) :
    ((r.amount < 1 / 100 ∨ r.paymentMethod ∉ ["cash", "check", "transfer"] ∨
        ¬ noteOk r.note) →
      (createPayment db r userId now).1 = Except.error (PayErr.validation
        (createPaymentValidator r.amount r.paymentMethod r.note))) ∧
    (createPaymentValidator r.amount r.paymentMethod r.note = [] →
      dbFind db.invoices r.invoice = none →
      (createPayment db r userId now).1 = Except.error PayErr.invoiceNotFound) ∧
    (∀ inv, createPaymentValidator r.amount r.paymentMethod r.note = [] →
      dbFind db.invoices r.invoice = some inv → inv.status = InvStatus.paid →
      (createPayment db r userId now).1 = Except.error PayErr.alreadyPaid) ∧
    (∀ inv, createPaymentValidator r.amount r.paymentMethod r.note = [] →
      dbFind db.invoices r.invoice = some inv → inv.status ≠ InvStatus.paid →
      inv.amount - inv.amountPaid < r.amount →
      (createPayment db r userId now).1 =
        Except.error (PayErr.exceedsBalance r.amount
          (inv.amount - inv.amountPaid))) := by
  refine ⟨?_, ?_, ?_, ?_⟩
  · intro hdisj
    have hv : createPaymentValidator r.amount r.paymentMethod r.note ≠ [] := by
      intro h
      obtain ⟨h1, h2, h3⟩ := of_createPaymentValidator_nil h
      rcases hdisj with hd | hd | hd
      · exact absurd h1 (not_le.mpr hd)
      · exact hd h2
      · exact hd h3
    rw [createPayment_validation hv]
  · intro hv hfind
    rw [createPayment_notFound hv hfind]
  · intro inv hv hfind hst
    rw [createPayment_alreadyPaidBranch hv hfind hst]
  · intro inv hv hfind hst hbal
    rw [createPayment_exceeds hv hfind hst hbal]

/-- C4 (witness): with a well-formed request against a missing invoice the
error is the not-found one, at a concrete database. -/
theorem createPayment_check_order_witness :
    (createPayment
      { users := [], clients := [], invoices := [], payments := [], nextId := 0 }
      { invoice := 9, amount := 50, paymentMethod := "cash",
        paymentDate := none, note := none } 0 0).1
      = Except.error PayErr.invoiceNotFound :=
  (createPayment_check_order
    { users := [], clients := [], invoices := [], payments := [], nextId := 0 }
    { invoice := 9, amount := 50, paymentMethod := "cash",
      paymentDate := none, note := none } 0 0).2.1
    (by with_unfolding_all decide) (by with_unfolding_all decide)

/-- C5: counterexample — against a paid invoice with amountPaid 100 below
amount 1000, the positive payment amount 1/200 is rejected by the field
validator, not with the already-settled error the claim promises for every
positive amount. -/
theorem createPayment_settled_cx :
    (0 : ℚ) < 1 / 200 ∧
    (createPayment
      { users := [], clients := [],
        invoices := [(2, { invoiceNumber := "INV-1", client := 1, amount := 1000,
                           amountPaid := 100, dueDate := 0,
                           status := InvStatus.paid, createdBy := 0 })],
        payments := [], nextId := 3 }
      { invoice := 2, amount := 1 / 200, paymentMethod := "cash",
        paymentDate := none, note := none } 0 0).1
      = Except.error (PayErr.validation ["Payment amount must be greater than 0"]) ∧
    (createPayment
      { users := [], clients := [],
        invoices := [(2, { invoiceNumber := "INV-1", client := 1, amount := 1000,
                           amountPaid := 100, dueDate := 0,
                           status := InvStatus.paid, createdBy := 0 })],
        payments := [], nextId := 3 }
      { invoice := 2, amount := 1 / 200, paymentMethod := "cash",
        paymentDate := none, note := none } 0 0).1
      ≠ Except.error PayErr.alreadyPaid := by
  with_unfolding_all decide

/-- C5 (amended): for every request passing field validation against a stored
invoice, the already-settled rejection happens exactly when the stored status
is paid — independently of whether amountPaid is numerically below amount —
and the database is unchanged by the rejection. -/
theorem createPayment_alreadySettled (db : DB) (r : PayReq) (userId : Nat)
    (now : Int) (inv : Invoice)
    (hv : createPaymentValidator r.amount r.paymentMethod r.note = [])
    (hfind : dbFind db.invoices r.invoice = some inv) :
    (inv.status = InvStatus.paid →
      (createPayment db r userId now).1 = Except.error PayErr.alreadyPaid ∧
      (createPayment db r userId now).2 = db) ∧
    (inv.status ≠ InvStatus.paid →
      (createPayment db r userId now).1 ≠ Except.error PayErr.alreadyPaid) := by
  constructor
  · intro hst
    rw [createPayment_alreadyPaidBranch hv hfind hst]
    exact ⟨rfl, rfl⟩
  · intro hst
    by_cases hbal : inv.amount - inv.amountPaid < r.amount
    · rw [createPayment_exceeds hv hfind hst hbal]
      simp
    · obtain ⟨pp, hsp, -, -⟩ := strategyProcess_of_mem r.amount r.note now
        (of_createPaymentValidator_nil hv).2.1
      rw [@createPayment_success_eval db r userId now inv pp hv hfind hst hbal hsp]
      simp

/-- C5 (witness): a 50 payment on a paid invoice whose amountPaid 100 is far
below its amount 1000 is rejected with the already-settled error and leaves
the database unchanged. -/
theorem createPayment_alreadySettled_witness :
    (createPayment
      { users := [], clients := [],
        invoices := [(2, { invoiceNumber := "INV-1", client := 1, amount := 1000,
                           amountPaid := 100, dueDate := 0,
                           status := InvStatus.paid, createdBy := 0 })],
        payments := [], nextId := 3 }
      { invoice := 2, amount := 50, paymentMethod := "cash",
        paymentDate := none, note := none } 0 0).1
      = Except.error PayErr.alreadyPaid ∧
    (createPayment
      { users := [], clients := [],
        invoices := [(2, { invoiceNumber := "INV-1", client := 1, amount := 1000,
                           amountPaid := 100, dueDate := 0,
                           status := InvStatus.paid, createdBy := 0 })],
        payments := [], nextId := 3 }
      { invoice := 2, amount := 50, paymentMethod := "cash",
        paymentDate := none, note := none } 0 0).2
      = { users := [], clients := [],
          invoices := [(2, { invoiceNumber := "INV-1", client := 1, amount := 1000,
                             amountPaid := 100, dueDate := 0,
                             status := InvStatus.paid, createdBy := 0 })],
          payments := [], nextId := 3 } :=
  (createPayment_alreadySettled
    { users := [], clients := [],
      invoices := [(2, { invoiceNumber := "INV-1", client := 1, amount := 1000,
                         amountPaid := 100, dueDate := 0,
                         status := InvStatus.paid, createdBy := 0 })],
      payments := [], nextId := 3 }
    { invoice := 2, amount := 50, paymentMethod := "cash",
      paymentDate := none, note := none } 0 0
    { invoiceNumber := "INV-1", client := 1, amount := 1000,
      amountPaid := 100, dueDate := 0, status := InvStatus.paid, createdBy := 0 }
    (by with_unfolding_all decide) (by with_unfolding_all decide)).1
    (by with_unfolding_all decide)

/-- The API trace refuting the global invariant: register an agent, create a
client and an invoice of amount 1000, pay 600 against it, then update the
invoice amount down to 500 — each step through the embedded controllers. -/
def c2Trace : DB :=
  let db0 : DB := { users := [], clients := [], invoices := [], payments := [], nextId := 0 }
  let db1 := (register (fun _ => true) (fun s => s) db0
    { name := "Agent Smith", email := "agent@x.com", password := "secret1",
      role := none }).2
  let db2 := (createClient (fun _ => true) db1
    { name := "ACME Corp", email := none, phone := none, address := none } 0).2
  let db3 := (createInvoice db2
    { invoiceNumber := "INV-1", client := 1, amount := 1000, dueDate := 0 } 0).2
  let db4 := (createPayment db3
    { invoice := 2, amount := 600, paymentMethod := "cash",
      paymentDate := none, note := none } 0 0).2
  (updateInvoice db4 2
    { invoiceNumber := none, client := none, amount := some 500,
      dueDate := none, status := none }).2

/-- C2: counterexample — after the c2Trace sequence of API calls the stored
invoice has amount 500 but amountPaid 600: updateInvoice does not preserve
the invariant 0 ≤ amountPaid ≤ amount. -/
theorem invariant_violated_by_updateInvoice :
    (dbFind c2Trace.invoices 2).map Invoice.amount = some 500 ∧
    (dbFind c2Trace.invoices 2).map Invoice.amountPaid = some 600 ∧
    (dbFind c2Trace.invoices 2).map (fun i => decide (invariantOk i)) = some false := by
  with_unfolding_all decide

/-- C2 (amended): every invoice satisfies 0 ≤ amountPaid ≤ amount when it is
created — amountPaid defaults to 0 and the validator forces a nonnegative
amount — and createPayment preserves the invariant on every stored invoice;
updateInvoice, however, can violate it by lowering amount below the stored
amountPaid. -/
theorem invariant_creation_and_payment (db : DB) (ir : CreateInvoiceReq)
    (pr : PayReq) (uid : Nat) (now : Int) :
    (∀ p : Nat × Invoice, p ∈ (createInvoice db ir uid).2.invoices →
      p ∈ db.invoices ∨ invariantOk p.2) ∧
    ((∀ p : Nat × Invoice, p ∈ db.invoices → invariantOk p.2) →
      ∀ p : Nat × Invoice, p ∈ (createPayment db pr uid now).2.invoices →
        invariantOk p.2) := by
  constructor
  · by_cases hv : createInvoiceValidator ir.invoiceNumber ir.amount = []
    · cases hfc : dbFind db.clients ir.client with
      | none =>
        simp only [createInvoice, hv, hfc, ne_eq, not_true_eq_false, if_false]
        exact fun p hp => Or.inl hp
      | some c =>
        by_cases hdup :
            (db.invoices.any (fun p => p.2.invoiceNumber = ir.invoiceNumber)) = true
        · simp only [createInvoice, hv, hfc, hdup, ne_eq, not_true_eq_false,
            if_false, if_true]
          exact fun p hp => Or.inl hp
        · simp only [createInvoice, hv, hfc, ne_eq, not_true_eq_false, if_false]
          rw [if_neg hdup]
          intro p hp
          rcases List.mem_append.mp hp with hmem | hnew
          · exact Or.inl hmem
          · rcases List.mem_singleton.mp hnew with rfl
            exact Or.inr ⟨le_refl 0, createInvoiceValidator_amount_nonneg hv⟩
    · have hv2 : createInvoiceValidator ir.invoiceNumber ir.amount ≠ [] := hv
      simp only [createInvoice]
      rw [if_pos hv2]
      exact fun p hp => Or.inl hp
  · intro hinv
    by_cases hv : createPaymentValidator pr.amount pr.paymentMethod pr.note = []
    · cases hfind : dbFind db.invoices pr.invoice with
      | none =>
        rw [createPayment_notFound hv hfind]
        exact fun p hp => hinv p hp
      | some inv =>
        by_cases hst : inv.status = InvStatus.paid
        · rw [createPayment_alreadyPaidBranch hv hfind hst]
          exact fun p hp => hinv p hp
        · by_cases hbal : inv.amount - inv.amountPaid < pr.amount
          · rw [createPayment_exceeds hv hfind hst hbal]
            exact fun p hp => hinv p hp
          · obtain ⟨h100, hmeth, -⟩ := of_createPaymentValidator_nil hv
            obtain ⟨pp, hsp, -, -⟩ :=
              strategyProcess_of_mem pr.amount pr.note now hmeth
            rw [@createPayment_success_eval db pr uid now inv pp hv hfind hst hbal hsp]
            intro p hp
            rcases mem_setById hp with rfl | hmem
            · have hold : invariantOk inv := hinv _ (dbFind_mem hfind)
              have hpos : (0 : ℚ) < pr.amount := lt_of_lt_of_le (by norm_num) h100
              refine ⟨by simp only; linarith [hold.1], ?_⟩
              simp only
              have := not_lt.mp hbal
              linarith [hold.2]
            · exact hinv _ hmem
    · rw [createPayment_validation hv]
      exact fun p hp => hinv p hp

/-- C2 (witness): after a 600 payment on an unpaid invoice of amount 1000 the
stored invoice still satisfies the invariant. -/
theorem invariant_creation_and_payment_witness :
    invariantOk { invoiceNumber := "INV-1", client := 1, amount := 1000,
                  amountPaid := (0 : ℚ) + 600, dueDate := 0,
                  status := (if (1000 : ℚ) ≤ 0 + 600 then InvStatus.paid
                             else if (0 : ℚ) < 0 + 600 then InvStatus.partlyPaid
                             else InvStatus.unpaid), createdBy := 0 } :=
  (invariant_creation_and_payment
    { users := [], clients := [],
      invoices := [(2, { invoiceNumber := "INV-1", client := 1, amount := 1000,
                         amountPaid := 0, dueDate := 0,
                         status := InvStatus.unpaid, createdBy := 0 })],
      payments := [], nextId := 3 }
    { invoiceNumber := "X", client := 0, amount := 0, dueDate := 0 }
    { invoice := 2, amount := 600, paymentMethod := "cash",
      paymentDate := none, note := none } 0 5).2
    (by with_unfolding_all decide)
    (2, { invoiceNumber := "INV-1", client := 1, amount := 1000,
          amountPaid := (0 : ℚ) + 600, dueDate := 0,
          status := (if (1000 : ℚ) ≤ 0 + 600 then InvStatus.paid
                     else if (0 : ℚ) < 0 + 600 then InvStatus.partlyPaid
                     else InvStatus.unpaid), createdBy := 0 })
    (by with_unfolding_all decide)

lemma protect_ok_find {verify : String → Option Nat} {db : DB}
    {cookie : Option String} {u : AuthedUser}
    (hp : protect verify db cookie = Except.ok u) :
    ∃ usr : User, dbFind db.users u.id = some usr := by
  unfold protect at hp
  split at hp
  · cases hp
  · split at hp
    · cases hp
    · split at hp
      · cases hp
      · cases hp
        exact ⟨_, by assumption⟩

lemma authorize_notin {roles : List Role} {u : AuthedUser}
    (h : u.role ∉ roles) :
    authorize roles (some u) = Except.error
      { message := "Role " ++ roleName u.role ++
          " is not authorized to access this resource", code := 403 } :=
  if_neg h

lemma authorize_mem {roles : List Role} {u : AuthedUser}
    (h : u.role ∈ roles) :
    authorize roles (some u) = Except.ok () :=
  if_pos h

lemma protectedRoute_ok {α : Type} {verify : String → Option Nat} {db : DB}
    {cookie : Option String} {u : AuthedUser}
    (hp : protect verify db cookie = Except.ok u) (roles : List Role)
    (handler : AuthedUser → DB → Except HttpError α × DB) :
    protectedRoute verify db cookie roles handler =
      match authorize roles (some u) with
      | Except.error e => (Except.error e, db)
      | Except.ok _ => handler u db := by
  unfold protectedRoute
  rw [hp]

/-- C6: for any statically declared role list, an authenticated identity whose
role is outside the list is rejected by the authorize gate with a 403 error;
in particular an authenticated admin posting to the clients collection gets
the 403 role error and the database — hence the client collection — is
exactly the one before the call. -/
theorem authorize_forbidden (isEmail : String → Bool)
    (verify : String → Option Nat) (db : DB) (cookie : Option String)
    (body : ClientReq) (u : AuthedUser) :
    (∀ roles : List Role, u.role ∉ roles →
      authorize roles (some u) = Except.error
        { message := "Role " ++ roleName u.role ++
            " is not authorized to access this resource", code := 403 }) ∧
    (protect verify db cookie = Except.ok u → u.role = Role.admin →
      clientsCreateRoute isEmail verify db cookie body =
        (Except.error { message := "Role admin is not authorized to access this resource",
                        code := 403 }, db)) := by
  constructor
  · intro roles hnotin
    exact authorize_notin hnotin
  · intro hp hrole
    unfold clientsCreateRoute
    rw [protectedRoute_ok hp]
    rw [authorize_notin (by rw [hrole]; decide)]
    rw [hrole]
    with_unfolding_all rfl

/-- C6 (witness): a concrete admin identity authenticated from the cookie is
rejected with the 403 role error when creating a client, and the store is
untouched. -/
theorem authorize_forbidden_witness :
    clientsCreateRoute (fun _ => true) (fun _ => some 0)
      { users := [(0, { name := "Root", email := "root@x.com",
                        password := "h", role := Role.admin })],
        clients := [], invoices := [], payments := [], nextId := 1 }
      (some "token")
      { name := "ACME Corp", email := none, phone := none, address := none } =
      (Except.error { message := "Role admin is not authorized to access this resource",
                      code := 403 },
       { users := [(0, { name := "Root", email := "root@x.com",
                         password := "h", role := Role.admin })],
         clients := [], invoices := [], payments := [], nextId := 1 }) :=
  (authorize_forbidden (fun _ => true) (fun _ => some 0)
    { users := [(0, { name := "Root", email := "root@x.com",
                      password := "h", role := Role.admin })],
      clients := [], invoices := [], payments := [], nextId := 1 }
    (some "token")
    { name := "ACME Corp", email := none, phone := none, address := none }
    { id := 0, name := "Root", email := "root@x.com", role := Role.admin }).2
    (by with_unfolding_all decide) (by with_unfolding_all decide)

/-- C7: whenever the protect middleware fails — missing cookie, failed token
verification, or a token whose user id resolves to no stored user — the
failure is a 401 error and the pipeline stops there: the outcome of any
protected route is that same 401 error with the database untouched, whatever
role list and handler the route declares, so the role check is never
reached. -/
theorem protect_failure_blocks (verify : String → Option Nat) (db : DB)
    (cookie : Option String) (e : HttpError)
    (hp : protect verify db cookie = Except.error e) :
    e.code = 401 ∧
    ∀ (α : Type) (roles : List Role)
      (handler : AuthedUser → DB → Except HttpError α × DB),
      protectedRoute verify db cookie roles handler = (Except.error e, db) := by
  constructor
  · unfold protect at hp
    split at hp
    · cases hp; rfl
    · split at hp
      · cases hp; rfl
      · split at hp
        · cases hp; rfl
        · cases hp
  · intro α roles handler
    unfold protectedRoute
    rw [hp]

/-- C7 (witness): with no cookie the pipeline answers the 401 no-token error
for a concrete role list and handler, never running either. -/
theorem protect_failure_blocks_witness :
    ({ message := "Not authorized, no token", code := 401 } : HttpError).code = 401 ∧
    protectedRoute (fun _ => none)
      { users := [], clients := [], invoices := [], payments := [], nextId := 0 }
      none [Role.agent, Role.manager]
      (fun _ d => (Except.ok (0 : Nat), d)) =
      (Except.error { message := "Not authorized, no token", code := 401 },
       { users := [], clients := [], invoices := [], payments := [], nextId := 0 }) :=
  ⟨(protect_failure_blocks (fun _ => none)
      { users := [], clients := [], invoices := [], payments := [], nextId := 0 }
      none { message := "Not authorized, no token", code := 401 }
      (by with_unfolding_all decide)).1,
   (protect_failure_blocks (fun _ => none)
      { users := [], clients := [], invoices := [], payments := [], nextId := 0 }
      none { message := "Not authorized, no token", code := 401 }
      (by with_unfolding_all decide)).2 Nat [Role.agent, Role.manager]
      (fun _ d => (Except.ok 0, d))⟩

/-- C8: for a login request that passes field validation, the failure outcome
is the one invalidCredentials error — surfaced as message Invalid email or
password with status 401 — both when no stored user carries the email and
when a user does but the password comparison rejects, so the two causes are
indistinguishable to the caller. -/
theorem login_failure_uniform (isEmail : String → Bool)
    (matchPw : String → String → Bool) (db : DB) (email pw : String)
    (hv : loginValidator isEmail email pw = []) :
    (findByEmail db.users email = none →
      login isEmail matchPw db email pw =
        Except.error AuthFail.invalidCredentials) ∧
    (∀ id u, findByEmail db.users email = some (id, u) →
      matchPw pw u.password = false →
      login isEmail matchPw db email pw =
        Except.error AuthFail.invalidCredentials) ∧
    AuthFail.invalidCredentials.toHttp =
      { message := "Invalid email or password", code := 401 } := by
  refine ⟨?_, ?_, rfl⟩
  · intro hfind
    simp only [login, hv, hfind, ne_eq, not_true_eq_false, if_false]
  · intro id u hfind hmatch
    simp only [login, hv, hfind, hmatch, ne_eq, not_true_eq_false, if_false,
      Bool.false_eq_true]

/-- C8 (witness): an unknown email and a known email with a wrong password
produce the same invalidCredentials error on concrete stores. -/
theorem login_failure_uniform_witness :
    login (fun _ => true) (fun p h => p == h)
      { users := [], clients := [], invoices := [], payments := [], nextId := 0 }
      "ghost@x.com" "pw123456" = Except.error AuthFail.invalidCredentials ∧
    login (fun _ => true) (fun p h => p == h)
      { users := [(0, { name := "Amel", email := "amel@x.com",
                        password := "storedhash", role := Role.agent })],
        clients := [], invoices := [], payments := [], nextId := 1 }
      "amel@x.com" "wrongpw" = Except.error AuthFail.invalidCredentials :=
  ⟨(login_failure_uniform (fun _ => true) (fun p h => p == h)
      { users := [], clients := [], invoices := [], payments := [], nextId := 0 }
      "ghost@x.com" "pw123456" (by with_unfolding_all decide)).1
      (by with_unfolding_all decide),
   (login_failure_uniform (fun _ => true) (fun p h => p == h)
      { users := [(0, { name := "Amel", email := "amel@x.com",
                        password := "storedhash", role := Role.agent })],
        clients := [], invoices := [], payments := [], nextId := 1 }
      "amel@x.com" "wrongpw" (by with_unfolding_all decide)).2.1 0
      { name := "Amel", email := "amel@x.com", password := "storedhash",
        role := Role.agent }
      (by with_unfolding_all decide) (by with_unfolding_all decide)⟩

/-- C9: an authenticated admin deleting the user id equal to their own is
rejected with the 400 cannot-delete-your-own-account error and the database —
in particular the stored user set — is exactly the one before the call. -/
theorem deleteUser_self_forbidden (verify : String → Option Nat) (db : DB)
    (cookie : Option String) (u : AuthedUser)
    (hp : protect verify db cookie = Except.ok u)
    (hrole : u.role = Role.admin) :
    usersDeleteRoute verify db cookie u.id =
      (Except.error { message := "Cannot delete your own account", code := 400 }, db) := by
  obtain ⟨usr, hfind⟩ := protect_ok_find hp
  unfold usersDeleteRoute
  rw [protectedRoute_ok hp]
  rw [authorize_mem (by rw [hrole]; exact List.mem_singleton.mpr rfl)]
  show deleteUser db u.id u.id =
    (Except.error { message := "Cannot delete your own account", code := 400 }, db)
  unfold deleteUser
  rw [hfind]
  exact if_pos rfl

/-- C9 (witness): a concrete admin invoking deletion on their own id gets the
400 error and the user set is untouched. -/
theorem deleteUser_self_forbidden_witness :
    usersDeleteRoute (fun _ => some 0)
      { users := [(0, { name := "Root", email := "root@x.com",
                        password := "h", role := Role.admin })],
        clients := [], invoices := [], payments := [], nextId := 1 }
      (some "token") 0 =
      (Except.error { message := "Cannot delete your own account", code := 400 },
       { users := [(0, { name := "Root", email := "root@x.com",
                         password := "h", role := Role.admin })],
         clients := [], invoices := [], payments := [], nextId := 1 }) :=
  deleteUser_self_forbidden (fun _ => some 0)
    { users := [(0, { name := "Root", email := "root@x.com",
                      password := "h", role := Role.admin })],
      clients := [], invoices := [], payments := [], nextId := 1 }
    (some "token")
    { id := 0, name := "Root", email := "root@x.com", role := Role.admin }
    (by with_unfolding_all decide) (by with_unfolding_all decide)

/-- C10: every user the register endpoint adds to the store carries role
agent — the controller reads only name, email and password from the body, so
a supplied role value never reaches the created record; moreover supplying
any of the three valid role strings produces exactly the same outcome as
supplying none. -/
theorem register_role_always_agent (isEmail : String → Bool)
    (hash : String → String) (db : DB) (r : RegisterReq) :
    (∀ p : Nat × User, p ∈ (register isEmail hash db r).2.users →
      p ∈ db.users ∨ p.2.role = Role.agent) ∧
    (∀ s, r.role = some s → s ∈ ["agent", "manager", "admin"] →
      register isEmail hash db r = register isEmail hash db
        { name := r.name, email := r.email, password := r.password, role := none }) := by
  constructor
  · intro p hp
    by_cases hv : registerValidator isEmail r = []
    · by_cases hfind : (findByEmail db.users r.email).isSome
      · obtain ⟨q, hq⟩ := Option.isSome_iff_exists.mp hfind
        simp only [register, hv, hq, ne_eq, not_true_eq_false, if_false] at hp
        exact Or.inl hp
      · have hnone : findByEmail db.users r.email = none :=
          Option.not_isSome_iff_eq_none.mp hfind
        simp only [register, hv, hnone, ne_eq, not_true_eq_false, if_false] at hp
        rcases List.mem_append.mp hp with hmem | hnew
        · exact Or.inl hmem
        · rcases List.mem_singleton.mp hnew with rfl
          exact Or.inr rfl
    · simp only [register] at hp
      rw [if_pos hv] at hp
      exact Or.inl hp
  · intro s hs hmem
    have hval : registerValidator isEmail r =
        registerValidator isEmail
          { name := r.name, email := r.email, password := r.password, role := none } := by
      unfold registerValidator
      rw [hs]
      simp only [if_pos hmem, List.append_nil]
    unfold register
    rw [hval]

/-- C10 (witness): registering with role admin in the body creates the user
with role agent on an empty store. -/
theorem register_role_always_agent_witness :
    (0, ({ name := "Eve Adams", email := "eve@x.com", password := "secret1",
           role := Role.agent } : User)) ∈
        ([] : List (Nat × User)) ∨
      ({ name := "Eve Adams", email := "eve@x.com", password := "secret1",
         role := Role.agent } : User).role = Role.agent :=
  (register_role_always_agent (fun _ => true) (fun s => s)
    { users := [], clients := [], invoices := [], payments := [], nextId := 0 }
    { name := "Eve Adams", email := "Eve@X.com", password := "secret1",
      role := some "admin" }).1
    (0, { name := "Eve Adams", email := "eve@x.com", password := "secret1",
          role := Role.agent })
    (by with_unfolding_all decide)
